import Mathlib

namespace Anrm

/-- A concrete molecule instance: its type name and, per site, an optional
discrete state label (bond-only sites carry no label). -/
structure Mol where
  mtype : String
  states : List (String × Option String)
deriving DecidableEq

/-- A reference to one site of one molecule instance inside a species:
the molecule's index and the site's name. -/
abbrev SiteRef := Nat × String

/-- Modelled from the spec: a Species is a connected complex of molecule
instances joined by bonds (the engine that builds these is the PySB/BNG
network generator, which is not part of this repository's sources). -/
structure Species where
  mols : List Mol
  bonds : List (SiteRef × SiteRef)
deriving DecidableEq

/-- Bond constraint a pattern may place on a site: unconstrained, explicitly
unbound (None), bound to anything (ANY), or bound via a numbered pattern bond. -/
inductive BondC
  | free
  | unbound
  | bAny
  | bnum (n : Nat)
deriving DecidableEq

structure SiteC where
  site : String
  bond : BondC
  state : Option String
deriving DecidableEq

structure PatMol where
  mtype : String
  sites : List SiteC
deriving DecidableEq

/-- Modelled from the spec: a Pattern is a partial specification over one or
more molecule types (PySB MonomerPattern / ComplexPattern). -/
structure Pattern where
  mols : List PatMol
deriving DecidableEq

def bondedIn (S : Species) (a b : SiteRef) : Bool :=
  S.bonds.any fun e => decide ((e.1 = a ∧ e.2 = b) ∨ (e.1 = b ∧ e.2 = a))

def isBound (S : Species) (a : SiteRef) : Bool :=
  S.bonds.any fun e => decide (e.1 = a ∨ e.2 = a)

def stateOf (S : Species) (r : SiteRef) : Option String :=
  ((S.mols.get? r.1).bind fun m =>
    m.states.findSome? fun q => if q.1 = r.2 then some q.2 else none).getD none

/-- All lists of length n with entries drawn from range m (the candidate
assignments of pattern molecule references to species molecule indices). -/
def allTuples : Nat → Nat → List (List Nat)
  | 0, _ => [[]]
  | n + 1, m => (List.range m).flatMap fun j => (allTuples n m).map (j :: ·)

/-- Does site constraint sc hold for site sc.site of the species molecule at
index j?  State constraints compare the stored label; bond constraints check
the species' realized bond list. -/
def siteOkB (S : Species) (j : Nat) (sc : SiteC) : Bool :=
  (match sc.state with
   | none => true
   | some v => decide (stateOf S (j, sc.site) = some v)) &&
  (match sc.bond with
   | .free => true
   | .unbound => !(isBound S (j, sc.site))
   | .bAny => isBound S (j, sc.site)
   | .bnum _ => isBound S (j, sc.site))

/-- Per-molecule validity of a candidate assignment b: each pattern molecule
maps to an in-range species molecule of the same type whose sites satisfy
every site constraint. -/
def molOkB (P : Pattern) (S : Species) (b : List Nat) : Bool :=
  (List.range P.mols.length).all fun i =>
    match P.mols.get? i, b.get? i with
    | some pm, some j =>
        decide (j < S.mols.length) &&
        (match S.mols.get? j with
         | some m => decide (pm.mtype = m.mtype)
         | none => false) &&
        pm.sites.all (siteOkB S j)
    | _, _ => false

/-- The sites of a pattern that carry a numbered pattern bond, with the bond id. -/
def patBondSites (P : Pattern) : List (Nat × String × Nat) :=
  (List.range P.mols.length).flatMap fun i =>
    match P.mols.get? i with
    | some pm => pm.sites.filterMap fun sc =>
        match sc.bond with
        | .bnum n => some (i, sc.site, n)
        | _ => none
    | none => []

/-- Pattern-internal bonds must map to actual bonds: any two distinct pattern
sites sharing a bond id must be bonded between the corresponding instances. -/
def patBondsOkB (P : Pattern) (S : Species) (b : List Nat) : Bool :=
  (patBondSites P).all fun x => (patBondSites P).all fun y =>
    decide (x.2.2 ≠ y.2.2) || decide ((x.1, x.2.1) = (y.1, y.2.1)) ||
    bondedIn S (b.getD x.1 0, x.2.1) (b.getD y.1 0, y.2.1)

def validBindingB (P : Pattern) (S : Species) (b : List Nat) : Bool :=
  decide (b.length = P.mols.length) && decide b.Nodup &&
  b.all (fun x => decide (x < S.mols.length)) &&
  molOkB P S b && patBondsOkB P S b

/-- A binding in the sense of the spec: an injective mapping from every
molecule reference of the pattern to a molecule instance of the species such
that types agree, all site bond/state constraints are satisfied, and
pattern-internal bonds map to actual bonds. -/
def ValidBinding (P : Pattern) (S : Species) (b : List Nat) : Prop :=
  b.length = P.mols.length ∧ b.Nodup ∧ (∀ x ∈ b, x < S.mols.length) ∧
  molOkB P S b = true ∧ patBondsOkB P S b = true

/-- Modelled from the spec: the Species Pattern Matcher
match(pattern, species), which must enumerate all distinct bindings.
(The matcher itself lives in PySB/BNG, outside this repository's sources.) -/
def matchAll (P : Pattern) (S : Species) : List (List Nat) :=
  (allTuples P.mols.length S.mols.length).filter (validBindingB P S)

/-- Reactant pattern of rule C8_activation (irvin_mod.py line 174):
FADD(bDED1=ANY, bDED2=ANY) % proC8(bDED=ANY) % proC8(bDED=ANY).
The two proC8 molecule references are interchangeable. -/
def c8ActivationReactant : Pattern :=
  ⟨[⟨"FADD", [⟨"bDED1", .bAny, none⟩, ⟨"bDED2", .bAny, none⟩]⟩,
    ⟨"proC8", [⟨"bDED", .bAny, none⟩]⟩,
    ⟨"proC8", [⟨"bDED", .bAny, none⟩]⟩]⟩

/-- A concrete FADD%proC8%proC8 homodimer complex: FADD bound to one proC8 at
bDED1 and to a second proC8 at bDED2 (the species the C8_activation rule
consumes). -/
def faddProC8ProC8 : Species :=
  ⟨[⟨"FADD", []⟩, ⟨"proC8", []⟩, ⟨"proC8", []⟩],
   [((0, "bDED1"), (1, "bDED")), ((0, "bDED2"), (2, "bDED"))]⟩

/-- The current bond partner of a site, if any. -/
def partnerOf (S : Species) (r : SiteRef) : Option SiteRef :=
  S.bonds.findSome? fun e =>
    if e.1 = r then some e.2 else if e.2 = r then some e.1 else none

/-- Structural edit: bind two sites (a new bond is added; molecules, states
and all other bonds are untouched). -/
def addBond (S : Species) (a b : SiteRef) : Species :=
  ⟨S.mols, (a, b) :: S.bonds⟩

/-- Structural edit: unbind two sites (only bonds joining exactly these two
sites are removed). -/
def removeBond (S : Species) (a b : SiteRef) : Species :=
  ⟨S.mols, S.bonds.filter fun e => decide (e ≠ (a, b) ∧ e ≠ (b, a))⟩

def updateAt : List Mol → Nat → (Mol → Mol) → List Mol
  | [], _, _ => []
  | m :: t, 0, f => f m :: t
  | m :: t, n + 1, f => m :: updateAt t n f

/-- Structural edit: change the state label of one site; bonds and every
other site are untouched. -/
def setState (S : Species) (r : SiteRef) (v : String) : Species :=
  ⟨updateAt S.mols r.1 fun m =>
    ⟨m.mtype, m.states.map fun q => if q.1 = r.2 then (q.1, some v) else q⟩,
   S.bonds⟩

/-- The CD95:FADD receptor complex (CD95 attached at bDD) used to witness C2:
recruiting proC8 at bDED1 leaves the bDD attachment untouched. -/
def cd95FaddComplex : Species :=
  ⟨[⟨"CD95", []⟩, ⟨"FADD", []⟩, ⟨"proC8", []⟩],
   [((0, "bDD"), (1, "bDD"))]⟩

/-- Modelled from the spec: a rule's structural edit may bind two sites,
unbind two sites, or change a site's state label, holding all other structure
fixed.  Sites are addressed by (pattern molecule index, site name). -/
inductive Edit
  | bindE (a : Nat × String) (b : Nat × String)
  | unbindE (a : Nat × String) (b : Nat × String)
  | stateE (a : Nat × String) (v : String)
deriving DecidableEq

/-- Apply a structural edit to a (combined) reactant species, with b the
binding taking pattern molecule indices to concrete molecule indices. -/
def applyEdit (S : Species) (b : List Nat) (e : Edit) : Species :=
  match e with
  | .bindE x y => addBond S (b.getD x.1 0, x.2) (b.getD y.1 0, y.2)
  | .unbindE x y => removeBond S (b.getD x.1 0, x.2) (b.getD y.1 0, y.2)
  | .stateE x v => setState S (b.getD x.1 0, x.2) v

/-- Disjoint union of two species (molecule indices of the second shifted). -/
def combine (S1 S2 : Species) : Species :=
  ⟨S1.mols ++ S2.mols,
   S1.bonds ++ S2.bonds.map fun e =>
     ((e.1.1 + S1.mols.length, e.1.2), (e.2.1 + S1.mols.length, e.2.2))⟩

def nbrs (S : Species) (i : Nat) : List Nat :=
  S.bonds.flatMap fun e =>
    if e.1.1 = i then [e.2.1] else if e.2.1 = i then [e.1.1] else []

def growStep (S : Species) (cur : List Nat) : List Nat :=
  (cur ++ cur.flatMap (nbrs S)).dedup

def reachAux (S : Species) : Nat → List Nat → List Nat
  | 0, cur => cur
  | f + 1, cur => reachAux S f (growStep S cur)

/-- The sorted list of molecule indices connected to index i. -/
def component (S : Species) (i : Nat) : List Nat :=
  (List.range S.mols.length).filter fun j => (reachAux S S.mols.length [i]).contains j

/-- Restrict a species to a sorted index set, reindexing bonds. -/
def extract (S : Species) (idxs : List Nat) : Species :=
  ⟨idxs.filterMap (S.mols.get? ·),
   S.bonds.filterMap fun e =>
     match idxs.findIdx? (fun x => x == e.1.1), idxs.findIdx? (fun x => x == e.2.1) with
     | some i, some j => some ((i, e.1.2), (j, e.2.2))
     | _, _ => none⟩

def splitAux (S : Species) : Nat → List Nat → List (List Nat)
  | 0, _ => []
  | f + 1, rem =>
    match rem with
    | [] => []
    | i :: rest =>
      let c := component S i
      c :: splitAux S f (rest.filter fun j => !(c.contains j))

/-- Split a (possibly disconnected) bond graph into its maximal connected
complexes: the Species invariant of the spec's data model. -/
def splitComponents (S : Species) : List Species :=
  (splitAux S S.mols.length (List.range S.mols.length)).map (extract S)

/-- Modelled from the spec: errors of the engine's taxonomy.
AmbiguousMatchError is listed because the spec promises it is never raised. -/
inductive EngineError
  | duplicateTypeError
  | invalidSiteError
  | unknownTypeError
  | malformedRuleError
  | networkTooLargeError
  | ambiguousMatchError
deriving DecidableEq

/-- Modelled from the spec: a Rule is reactant pattern(s) (one, or two for a
binary rule) plus a structural edit and a rate constant; a bidirectional PySB
rule is expanded into two such directional rules. -/
structure Rule where
  reactants : List Pattern
  edit : Edit
  rate : ℚ

/-- All (reactant species multiset, combined species, combined binding)
triples the rule's reactant patterns match against the known species,
with repetition of species allowed for binary rules. -/
def reactionCombos (r : Rule) (known : List Species) :
    List (List Species × Species × List Nat) :=
  match r.reactants with
  | [p] => known.flatMap fun S => (matchAll p S).map fun b => ([S], S, b)
  | [p1, p2] =>
      known.flatMap fun S1 => known.flatMap fun S2 =>
        (matchAll p1 S1).flatMap fun b1 => (matchAll p2 S2).map fun b2 =>
          ([S1, S2], combine S1 S2, b1 ++ b2.map (· + S1.mols.length))
  | _ => []

/-- A concrete, fully instantiated reaction. -/
structure Reaction where
  reactants : List Species
  products : List Species
  rate : ℚ

def reactionInstances (r : Rule) (known : List Species) : List Reaction :=
  (reactionCombos r known).map fun c =>
    ⟨c.1, splitComponents (applyEdit c.2.1 c.2.2 r.edit), r.rate⟩

/-- Modelled from the spec: apply(rule, known_species); a rule matching zero
times is a normal, non-error outcome, so the result is always ok. -/
def applyRule (r : Rule) (known : List Species) :
    Except EngineError (List Reaction) :=
  .ok (reactionInstances r known)

/-- Image of a site reference under a candidate molecule bijection p
(out-of-range indices are fixed, so the identity list acts as the identity). -/
def mapRef (p : List Nat) (r : SiteRef) : SiteRef :=
  (p.getD r.1 r.1, r.2)

def molsMatchB (p : List Nat) (S T : Species) : Bool :=
  (List.range S.mols.length).all fun i =>
    decide (S.mols.get? i = T.mols.get? (p.getD i i))

def bondImageB (p : List Nat) (S T : Species) : Bool :=
  S.bonds.all fun e => bondedIn T (mapRef p e.1) (mapRef p e.2)

def bondPreimB (p : List Nat) (S T : Species) : Bool :=
  T.bonds.all fun e => S.bonds.any fun e2 =>
    decide ((mapRef p e2.1 = e.1 ∧ mapRef p e2.2 = e.2) ∨
            (mapRef p e2.1 = e.2 ∧ mapRef p e2.2 = e.1))

def isoCheck (S T : Species) (p : List Nat) : Bool :=
  decide (p.length = S.mols.length) && decide p.Nodup &&
  p.all (fun x => decide (x < T.mols.length)) &&
  decide (S.mols.length = T.mols.length) &&
  molsMatchB p S T && bondImageB p S T && bondPreimB p S T

/-- Decision procedure for labeled-graph isomorphism of two species. -/
def isoSpecies (S T : Species) : Bool :=
  (allTuples S.mols.length T.mols.length).any (isoCheck S T)

/-- Two species are isomorphic as labeled graphs: some bijection of molecule
instances preserves molecule type, site state labels, and the bond relation
in both directions. -/
def SpeciesIso (S T : Species) : Prop :=
  ∃ p : List Nat,
    p.length = S.mols.length ∧ p.Nodup ∧ (∀ x ∈ p, x < T.mols.length) ∧
    S.mols.length = T.mols.length ∧
    molsMatchB p S T = true ∧ bondImageB p S T = true ∧ bondPreimB p S T = true

/-- Deduplicating insertion: a produced species is added only when it is not
isomorphic to an already-known species; known species are never rewritten. -/
def addNew (known : List Species) (produced : List Species) : List Species :=
  produced.foldl
    (fun acc S => if acc.any fun T => isoSpecies T S then acc else acc ++ [S]) known

/-- One EXPANDING pass: apply every rule against the current known-species
snapshot and merge the (deduplicated) new species in. -/
def productsOf (r : Rule) (known : List Species) : List Species :=
  (reactionInstances r known).flatMap (·.products)

def expandOnce (rules : List Rule) (known : List Species) : List Species :=
  addNew known (rules.flatMap fun r => productsOf r known)

/-- Result of network generation: the CONVERGED terminal state, an engine
error (NetworkTooLargeError when the configured bound is exceeded), or fuel
exhaustion — which the termination theorem rules out. -/
inductive GenResult
  | converged (species : List Species)
  | err (e : EngineError)
  | outOfFuel
deriving DecidableEq

def genLoop (rules : List Rule) (maxSpecies : Nat) :
    List Species → Nat → GenResult
  | _, 0 => .outOfFuel
  | known, fuel + 1 =>
    let next := expandOnce rules known
    if next.length = known.length then .converged known
    else if maxSpecies < next.length then .err .networkTooLargeError
    else genLoop rules maxSpecies next fuel

/-- Modelled from the spec: the Network Generator state machine — SEEDING
loads the initial species, then EXPANDING passes repeat until a pass yields
nothing new (CONVERGED) or the species bound is exceeded
(NetworkTooLargeError). -/
def generate (rules : List Rule) (maxSpecies : Nat) (seed : List Species) :
    GenResult :=
  genLoop rules maxSpecies seed (maxSpecies + 1)

/-- An active Bax molecule instance (Bax(bf=None, state='A'), the pore
subunit of lopez_pore_formation). -/
def baxA : Mol := ⟨"Bax", [("state", some "A")]⟩

/-- Pattern for a free active Bax monomer: Bax(bf=None, s1=None, s2=None,
state='A'). -/
def baxMonoPat : PatMol :=
  ⟨"Bax", [⟨"bf", .unbound, none⟩, ⟨"s1", .unbound, none⟩, ⟨"s2", .unbound, none⟩,
           ⟨"state", .free, some "A"⟩]⟩

/-- Pattern for a Bax 2-mer pore intermediate: both subunits active and
s2-s1 bonded, free ends unbound. -/
def baxPore2Pat : Pattern :=
  ⟨[⟨"Bax", [⟨"bf", .unbound, none⟩, ⟨"s1", .unbound, none⟩, ⟨"s2", .bnum 1, none⟩,
             ⟨"state", .free, some "A"⟩]⟩,
    ⟨"Bax", [⟨"bf", .unbound, none⟩, ⟨"s1", .bnum 1, none⟩, ⟨"s2", .unbound, none⟩,
             ⟨"state", .free, some "A"⟩]⟩]⟩

/-- Pattern for a Bax 3-mer pore intermediate. -/
def baxPore3Pat : Pattern :=
  ⟨[⟨"Bax", [⟨"bf", .unbound, none⟩, ⟨"s1", .unbound, none⟩, ⟨"s2", .bnum 1, none⟩,
             ⟨"state", .free, some "A"⟩]⟩,
    ⟨"Bax", [⟨"bf", .unbound, none⟩, ⟨"s1", .bnum 1, none⟩, ⟨"s2", .bnum 2, none⟩,
             ⟨"state", .free, some "A"⟩]⟩,
    ⟨"Bax", [⟨"bf", .unbound, none⟩, ⟨"s1", .bnum 2, none⟩, ⟨"s2", .unbound, none⟩,
             ⟨"state", .free, some "A"⟩]⟩]⟩

/-- Forward rate of the pore assembly steps (1.0e-6/v^2 = 2.040816e-04,
irvin_mod.py line 522). -/
def poreKf : ℚ := 2040816 / 10000000000

/-- Modelled from the spec: the pore-assembly rule set of
lopez_pore_formation with pore_max_size = 4, rendered in the spec's
bind-edit rule model as sequential assembly rules (size n + monomer ->
size n+1 for n = 1..3); no rule consumes a 4-mer, which is the explicit
size cap. -/
def poreRules : List Rule :=
  [⟨[⟨[baxMonoPat]⟩, ⟨[baxMonoPat]⟩], .bindE (0, "s2") (1, "s1"), poreKf⟩,
   ⟨[baxPore2Pat, ⟨[baxMonoPat]⟩], .bindE (1, "s2") (2, "s1"), poreKf⟩,
   ⟨[baxPore3Pat, ⟨[baxMonoPat]⟩], .bindE (2, "s2") (3, "s1"), poreKf⟩]

def baxMonoSpecies : Species := ⟨[baxA], []⟩

def baxChain2 : Species := ⟨[baxA, baxA], [((0, "s2"), (1, "s1"))]⟩

def baxChain3 : Species :=
  ⟨[baxA, baxA, baxA], [((1, "s2"), (2, "s1")), ((0, "s2"), (1, "s1"))]⟩

def baxChain4 : Species :=
  ⟨[baxA, baxA, baxA, baxA],
   [((2, "s2"), (3, "s1")), ((1, "s2"), (2, "s1")), ((0, "s2"), (1, "s1"))]⟩

/-- Unbounded oligomerization: any free s2 end binds any free s1 end, so
polymer growth never stops and only the species bound can stop generation. -/
def oligoGrowthRule : Rule :=
  ⟨[⟨[⟨"M", [⟨"s2", .unbound, none⟩]⟩]⟩, ⟨[⟨"M", [⟨"s1", .unbound, none⟩]⟩]⟩],
   .bindE (0, "s2") (1, "s1"), 1⟩

def mMonoSpecies : Species := ⟨[⟨"M", []⟩], []⟩

/-- Modelled from the spec: the engine's fixed input — rule declarations,
seeded initial species and the generation bound. -/
structure Decls where
  rules : List Rule
  seed : List Species
  maxSpecies : Nat

/-- The full generation result: species plus concrete reactions with rates. -/
structure Network where
  species : List Species
  reactions : List Reaction

/-- Modelled from the spec: a complete run of the Network Generator; none
when generation did not converge. -/
def generateNetwork (d : Decls) : Option Network :=
  match generate d.rules d.maxSpecies d.seed with
  | .converged sp => some ⟨sp, d.rules.flatMap fun r => reactionInstances r sp⟩
  | _ => none

/-- Networks are isomorphic when their species lists correspond pointwise up
to graph isomorphism and their reactions carry identical rate constants. -/
def NetworkIso (N1 N2 : Network) : Prop :=
  List.Forall₂ SpeciesIso N1.species N2.species ∧
  N1.reactions.map (·.rate) = N2.reactions.map (·.rate)

/-- Isomorphism of generation outcomes, lifted over non-convergence. -/
def GenOutcomeIso : Option Network → Option Network → Prop
  | some N1, some N2 => NetworkIso N1 N2
  | none, none => True
  | _, _ => False

/-- A rule that can never fire against a lone unbound Bar molecule: its
reactant pattern Bar(bC8=ANY) requires a bound site. -/
def barBoundRule : Rule :=
  ⟨[⟨[⟨"Bar", [⟨"bC8", .bAny, none⟩]⟩]⟩], .stateE (0, "bC8") "x", 1⟩

def barMonoSpecies : Species := ⟨[⟨"Bar", []⟩], []⟩

/-- Modelled from the spec: a named Observable is a Pattern with the
match-count aggregation rule. -/
structure Observable where
  name : String
  pattern : Pattern

/-- Modelled from the spec: the Observable Evaluator — a fold over the
species/count pairs of a single time point, accumulating
(number of distinct matches in the species) x (species count). -/
def evaluate (o : Observable) (speciesWithCounts : List (Species × Nat)) : Nat :=
  speciesWithCounts.foldl
    (fun acc sc => acc + (matchAll o.pattern sc.1).length * sc.2) 0

/-- The FADD_proC8_proC8 observable of irvin_mod.py line 686:
FADD(bDED1=ANY, bDED2=ANY)%proC8(bDED=ANY)%proC8(bDED=ANY). -/
def obsFaddProC8ProC8 : Observable := ⟨"FADD_proC8_proC8", c8ActivationReactant⟩

/-- Modelled from the spec: the Rate/Symmetry Corrector's combinatorial
factor, derived purely from automorphism counts of the matched pattern within
the reactant species — equivalently, the number of distinct bindings the
matcher finds for that pattern in that species. -/
def symFactor (P : Pattern) (S : Species) : Nat :=
  (matchAll P S).length

/-- Modelled from the spec: adjust the forward rate constant by the
combinatorial factor and the reverse rate constant by the reciprocal factor. -/
def correctRates (σ : Nat) (kf kr : ℚ) : ℚ × ℚ :=
  (kf / σ, kr * σ)

/-- Reactant side of Bax_dimerization (irvin_modv2.py line 455):
active_bax_monomer + active_bax_monomer, two interchangeable identical
subunit references. -/
def baxDimerReactants : Pattern := ⟨[baxMonoPat, baxMonoPat]⟩

/-- Two free active Bax monomers, the combined reactant species of the
dimerization. -/
def baxPairSpecies : Species := ⟨[baxA, baxA], []⟩

/-- Bax_dimerization_kf = 1e-6 (irvin_modv2.py lines 454-456). -/
def baxDimKf : ℚ := 1 / 1000000

/-- Bax_dimerization_kr = KR = 1e-3 (irvin_modv2.py lines 39, 457). -/
def baxDimKr : ℚ := 1 / 1000

/-- A statement of the embedded Python function body: either an assignment
binding a local name after reading a list of names, or a PySB Rule
declaration reading a list of names. -/
inductive PyStmt
  | assign (x : String) (reads : List String)
  | ruleDecl (r : String) (reads : List String)

/-- An unbound-name failure: the missing name together with the rules that
had been declared before the failing statement. -/
structure PyNameError where
  missing : String
  rulesDeclared : List String
deriving DecidableEq

/-- Execute a function body under Python name resolution (locals extend the
enclosing environment); reading a name bound nowhere stops execution with an
unbound-name error. -/
def runStmts : List PyStmt → List String → List String →
    Except PyNameError (List String)
  | [], _, rules => .ok rules
  | .assign x reads :: rest, env, rules =>
    match reads.find? fun n => !env.contains n with
    | some m => .error ⟨m, rules⟩
    | none => runStmts rest (x :: env) rules
  | .ruleDecl r reads :: rest, env, rules =>
    match reads.find? fun n => !env.contains n with
    | some m => .error ⟨m, rules⟩
    | none => runStmts rest env (rules ++ [r])

/-- The body of Bax_tetramerizes (irvin_modv2.py lines 425-473): the def
takes no parameters (the parameterized signature at line 424 is commented
out), so `bax_active_state` read at line 438 is neither a parameter, a
local, nor a global. -/
def baxTetramerizesBody : List PyStmt :=
  [.assign "rate_scaling_factor" [],
   .assign "active_unbound" ["bax_active_state"],
   .assign "active_bax_monomer" ["Bax"],
   .assign "bax2" ["Bax"],
   .assign "bax4" ["Bax"],
   .assign "KF_scaled" ["rate_scaling_factor"],
   .ruleDecl "Bax_dimerization"
     ["Rule", "active_bax_monomer", "bax2", "Parameter", "KF_scaled", "KR"],
   .assign "KF_Bax_tetramerization" ["rate_scaling_factor"],
   .assign "KR_Bax_tetramerization" [],
   .ruleDecl "Bax_tetramerization"
     ["Rule", "bax2", "bax4", "Parameter", "KF_Bax_tetramerization",
      "KR_Bax_tetramerization"]]

/-- The module-level names of irvin_modv2.py in scope at the call on line
545: imports, module functions, declared parameters and monomers (PySB
self-exports the names declared inside the module functions executed at
lines 533-543). -/
def modv2Globals : List String :=
  ["numpy", "Model", "Monomer", "Parameter", "Initial", "Rule", "Observable",
   "ANY", "WILD", "alias_model_components", "bind", "bind_table", "catalyze",
   "catalyze_state", "equilibrate", "degrade", "assemble_pore_sequential",
   "pore_transport", "pore_bind", "model",
   "KF", "KR", "KC", "KC2", "KE", "Ka_RIP1_FADD", "Kd_RIP1_FADD",
   "Kf_Apaf_acti", "Kf_Apop_asse", "Kf_C3_activa", "Kf_Apop_inhi",
   "Kf_Smac_inhi", "Kf_C3_activ2", "Kf_C3_ubiqui", "Kc_C3_ubiqui",
   "Kr_PARP_clea", "Kf_C8_activ2", "Kf_Bax_activ",
   "CD95_to_SecondaryComplex_monomers", "CD95_to_SecondaryComplex",
   "TNFR1_to_SecondaryComplex_monomers", "TNFR1_to_SecondaryComplex",
   "SecondaryComplex_to_Bid_monomers", "SecondaryComplex_to_Bid",
   "apaf1_to_parp_monomers", "pore_to_parp", "momp_monomers",
   "Bax_tetramerizes", "Bcl2_binds_Bax1_Bax2_and_Bax4", "albeck_11c",
   "Fas", "CD95", "FADD", "flip_L", "flip_S", "proC8", "C8", "Bar",
   "TNFa", "TNFR1", "TRADD", "CompI", "RIP1", "NFkB",
   "Bid", "BidK", "RIP3", "Apaf", "Apop", "C3", "C6", "C9", "PARP", "XIAP",
   "Bax", "Bcl2", "CytoC", "Smac",
   "Fas_0", "CD95_0", "FADD_0", "flip_L_0", "flip_S_0", "proC8_0", "C8_0",
   "Bar_0", "k1", "TNFa_0", "TNFR1_0", "TRADD_0", "CompI_0", "RIP1_0",
   "NFkB_0", "RIP3_0", "Bid_0", "BidK_0", "Apaf_0", "C3_0", "C6_0", "C9_0",
   "XIAP_0", "PARP_0"]

/-- Monomer declarations of irvin_mod.py: type name with its ordered site
list (the site named state is the one carrying a state label). -/
def modTypes : List (String × List String) :=
  [("Fas", ["blig"]), ("CD95", ["blig", "bDD"]), ("FADD", ["bDD", "bDED1", "bDED2"]),
   ("flip_L", ["bDED"]), ("flip_S", ["bDED"]), ("proC8", ["bDED"]),
   ("C8", ["bC8"]), ("Bar", ["bC8"]), ("TNFa", ["blig"]),
   ("TNFR1", ["blig", "bDD", "state"]), ("TRADD", ["bDD1", "bDD2", "state"]),
   ("CompI", ["bDD", "state"]), ("RIP1", ["bDD", "bRHIM", "bPARP", "state"]),
   ("NFkB", ["bf"]), ("Bid", ["bf", "state"]), ("BidK", ["bf"]),
   ("RIP3", ["bRHIM", "state"]), ("Bax", ["bf", "s1", "s2", "state"]),
   ("Bak", ["bf", "s1", "s2", "state"]), ("Bcl2", ["bf"]),
   ("BclxL", ["bf", "state"]), ("Mcl1", ["bf", "state"]),
   ("Bad", ["bf", "state"]), ("Noxa", ["bf", "state"]),
   ("CytoC", ["bf", "state"]), ("Smac", ["bf", "state"]),
   ("Apaf", ["bf", "state"]), ("Apop", ["bf"]), ("C3", ["bf", "state"]),
   ("C6", ["bf1", "bf2", "state"]), ("C9", ["bf"]), ("PARP", ["bf", "state"]),
   ("XIAP", ["bf"])]

/-- Monomer declarations of irvin_modv2.py (RIP1 has no bPARP site, C6 a
single bf site, PARP states U and C only). -/
def modv2Types : List (String × List String) :=
  [("Fas", ["blig"]), ("CD95", ["blig", "bDD"]), ("FADD", ["bDD", "bDED1", "bDED2"]),
   ("flip_L", ["bDED"]), ("flip_S", ["bDED"]), ("proC8", ["bDED"]),
   ("C8", ["bC8"]), ("Bar", ["bC8"]), ("TNFa", ["blig"]),
   ("TNFR1", ["blig", "bDD", "state"]), ("TRADD", ["bDD1", "bDD2", "state"]),
   ("CompI", ["bDD", "state"]), ("RIP1", ["bDD", "bRHIM", "state"]),
   ("NFkB", ["bf"]), ("Bid", ["bf", "state"]), ("BidK", ["bf"]),
   ("RIP3", ["bRHIM", "state"]), ("Bax", ["bf", "s1", "s2", "state"]),
   ("Bcl2", ["bf"]), ("CytoC", ["bf", "state"]), ("Smac", ["bf", "state"]),
   ("Apaf", ["bf", "state"]), ("Apop", ["bf"]), ("C3", ["bf", "state"]),
   ("C6", ["bf", "state"]), ("C9", ["bf"]), ("PARP", ["bf", "state"]),
   ("XIAP", ["bf"])]

/-- Shorthand for a site given as name=None in an Initial declaration. -/
def ub (s : String) : SiteC := ⟨s, .unbound, none⟩

/-- Shorthand for a state-bearing site given a concrete label (and no bond)
in an Initial declaration. -/
def st (v : String) : SiteC := ⟨"state", .unbound, some v⟩

/-- The executed Initial declarations of irvin_mod.py, in execution order
(every module function is called at lines 659-678). -/
def initialsMod : List PatMol :=
  [⟨"Fas", [ub "blig"]⟩,
   ⟨"CD95", [ub "blig", ub "bDD"]⟩,
   ⟨"FADD", [ub "bDD", ub "bDED1", ub "bDED2"]⟩,
   ⟨"flip_L", [ub "bDED"]⟩,
   ⟨"flip_S", [ub "bDED"]⟩,
   ⟨"proC8", [ub "bDED"]⟩,
   ⟨"C8", [ub "bC8"]⟩,
   ⟨"Bar", [ub "bC8"]⟩,
   ⟨"TNFa", [ub "blig"]⟩,
   ⟨"TNFR1", [ub "blig", ub "bDD", st "norm"]⟩,
   ⟨"TRADD", [ub "bDD1", ub "bDD2", st "inactive"]⟩,
   ⟨"CompI", [ub "bDD", st "unmod"]⟩,
   ⟨"RIP1", [ub "bDD", ub "bRHIM", ub "bPARP", st "ub"]⟩,
   ⟨"NFkB", [ub "bf"]⟩,
   ⟨"RIP3", [ub "bRHIM", st "unmod"]⟩,
   ⟨"Bid", [ub "bf", st "unmod"]⟩,
   ⟨"BidK", [ub "bf"]⟩,
   ⟨"Bad", [ub "bf", st "C"]⟩,
   ⟨"Bax", [ub "bf", ub "s1", ub "s2", st "C"]⟩,
   ⟨"Bak", [ub "bf", ub "s1", ub "s2", st "M"]⟩,
   ⟨"Bcl2", [ub "bf"]⟩,
   ⟨"BclxL", [ub "bf", st "C"]⟩,
   ⟨"Mcl1", [ub "bf", st "M"]⟩,
   ⟨"Noxa", [ub "bf", st "C"]⟩,
   ⟨"CytoC", [ub "bf", st "M"]⟩,
   ⟨"Smac", [ub "bf", st "M"]⟩,
   ⟨"Apaf", [ub "bf", st "I"]⟩,
   ⟨"C3", [ub "bf", st "pro"]⟩,
   ⟨"C6", [ub "bf1", ub "bf2", st "pro"]⟩,
   ⟨"C9", [ub "bf"]⟩,
   ⟨"PARP", [ub "bf", st "U"]⟩,
   ⟨"XIAP", [ub "bf"]⟩]

/-- The executed Initial declarations of irvin_modv2.py (module calls at
lines 533-543; albeck_11c, whose body holds the only other Initials, is
never invoked — its call at line 544 is commented out). -/
def initialsModv2 : List PatMol :=
  [⟨"Fas", [ub "blig"]⟩,
   ⟨"CD95", [ub "blig", ub "bDD"]⟩,
   ⟨"FADD", [ub "bDD", ub "bDED1", ub "bDED2"]⟩,
   ⟨"flip_L", [ub "bDED"]⟩,
   ⟨"flip_S", [ub "bDED"]⟩,
   ⟨"proC8", [ub "bDED"]⟩,
   ⟨"C8", [ub "bC8"]⟩,
   ⟨"Bar", [ub "bC8"]⟩,
   ⟨"TNFa", [ub "blig"]⟩,
   ⟨"TNFR1", [ub "blig", ub "bDD", st "norm"]⟩,
   ⟨"TRADD", [ub "bDD1", ub "bDD2", st "inactive"]⟩,
   ⟨"CompI", [ub "bDD", st "unmod"]⟩,
   ⟨"RIP1", [ub "bDD", ub "bRHIM", st "unmod"]⟩,
   ⟨"NFkB", [ub "bf"]⟩,
   ⟨"RIP3", [ub "bRHIM", st "unmod"]⟩,
   ⟨"Bid", [ub "bf", st "unmod"]⟩,
   ⟨"BidK", [ub "bf"]⟩,
   ⟨"Apaf", [ub "bf", st "I"]⟩,
   ⟨"C3", [ub "bf", st "pro"]⟩,
   ⟨"C6", [ub "bf", st "pro"]⟩,
   ⟨"C9", [ub "bf"]⟩,
   ⟨"PARP", [ub "bf", st "U"]⟩,
   ⟨"XIAP", [ub "bf"]⟩]

/-- An Initial declaration is monomeric-and-fully-unbound: it names a
declared type, lists every declared site of that type, and constrains every
site to be explicitly unbound. -/
def initialOk (types : List (String × List String)) (pm : PatMol) : Bool :=
  match types.lookup pm.mtype with
  | some sites =>
      decide (pm.sites.map (·.site) = sites) &&
      pm.sites.all fun sc => decide (sc.bond = BondC.unbound)
  | none => false

/-- The species seeded by a fully-unbound single-monomer Initial: one
molecule instance and no bonds. -/
def seedSpecies (pm : PatMol) : Species :=
  ⟨[⟨pm.mtype, pm.sites.map fun sc => (sc.site, sc.state)⟩], []⟩

theorem mem_allTuples (n m : Nat) (b : List Nat) :
    b ∈ allTuples n m ↔ b.length = n ∧ ∀ x ∈ b, x < m := by
  induction n generalizing b with
  | zero =>
    simp only [allTuples, List.mem_singleton]
    constructor
    · rintro rfl; simp
    · rintro ⟨h, _⟩; exact List.length_eq_zero.mp h
  | succ n ih =>
    simp only [allTuples, List.mem_flatMap, List.mem_map, List.mem_range]
    constructor
    · rintro ⟨j, hj, t, ht, rfl⟩
      obtain ⟨hlen, hmem⟩ := (ih t).mp ht
      refine ⟨by simp [hlen], ?_⟩
      intro x hx
      rcases List.mem_cons.mp hx with rfl | hx
      · exact hj
      · exact hmem x hx
    · rintro ⟨hlen, hmem⟩
      cases b with
      | nil => simp at hlen
      | cons j t =>
        refine ⟨j, hmem j (List.mem_cons_self _ _), t, (ih t).mpr ⟨by simpa using hlen, ?_⟩, rfl⟩
        exact fun x hx => hmem x (List.mem_cons_of_mem _ hx)

theorem mem_matchAll (P : Pattern) (S : Species) (b : List Nat) :
    b ∈ matchAll P S ↔ ValidBinding P S b := by
  unfold matchAll ValidBinding
  rw [List.mem_filter, mem_allTuples]
  unfold validBindingB
  simp only [Bool.and_eq_true, decide_eq_true_eq, List.all_eq_true]
  tauto

/-- C1: for every pattern P and concrete species S, match(P, S) returns every
distinct injective binding of P's molecule references into S's molecule
instances (types agreeing, all site bond/state constraints satisfied,
pattern-internal bonds mapped to actual bonds), not merely the first one; in
particular the FADD%proC8%proC8 reactant of the C8_activation rule yields one
binding per structurally distinct assignment of the two proC8 references
(two bindings in total). -/
theorem C1_matcher_enumerates_all_bindings :
    (∀ (P : Pattern) (S : Species) (b : List Nat),
        b ∈ matchAll P S ↔ ValidBinding P S b) ∧
    matchAll c8ActivationReactant faddProC8ProC8 = [[0, 1, 2], [0, 2, 1]] :=
  ⟨mem_matchAll, by decide⟩

theorem findSome?_filter_of_none {α β : Type} (f : α → Option β) (p : α → Bool)
    (l : List α) (h : ∀ e ∈ l, p e = false → f e = none) :
    (l.filter p).findSome? f = l.findSome? f := by
  induction l with
  | nil => rfl
  | cons e t ih =>
    by_cases hp : p e = true
    · rw [List.filter_cons_of_pos hp]
      simp only [List.findSome?]
      exact match f e with
        | some _ => rfl
        | none => ih fun x hx => h x (List.mem_cons_of_mem _ hx)
    · rw [List.filter_cons_of_neg hp]
      have : f e = none := h e (List.mem_cons_self _ _) (Bool.eq_false_iff.mpr hp)
      simp only [List.findSome?, this]
      exact ih fun x hx => h x (List.mem_cons_of_mem _ hx)

theorem partnerOf_addBond (S : Species) (a b r : SiteRef) (ha : r ≠ a) (hb : r ≠ b) :
    partnerOf (addBond S a b) r = partnerOf S r := by
  unfold partnerOf addBond
  simp only [List.findSome?]
  rw [if_neg (fun h => ha (Eq.symm h)), if_neg (fun h => hb (Eq.symm h))]

theorem partnerOf_removeBond (S : Species) (a b r : SiteRef) (ha : r ≠ a) (hb : r ≠ b) :
    partnerOf (removeBond S a b) r = partnerOf S r := by
  unfold partnerOf removeBond
  apply findSome?_filter_of_none
  intro e _ hpe
  have he : e = (a, b) ∨ e = (b, a) := by
    by_contra hc
    push_neg at hc
    simp [hc.1, hc.2] at hpe
  rcases he with rfl | rfl
  · simp only []
    rw [if_neg (fun h => ha (by simpa using h.symm)), if_neg (fun h => hb (by simpa using h.symm))]
  · simp only []
    rw [if_neg (fun h => hb (by simpa using h.symm)), if_neg (fun h => ha (by simpa using h.symm))]

theorem updateAt_get?_ne (l : List Mol) (n : Nat) (f : Mol → Mol) (i : Nat)
    (h : i ≠ n) : (updateAt l n f).get? i = l.get? i := by
  induction l generalizing n i with
  | nil => rfl
  | cons m t ih =>
    cases n with
    | zero =>
      cases i with
      | zero => exact absurd rfl h
      | succ j => rfl
    | succ n' =>
      cases i with
      | zero => rfl
      | succ j => exact ih n' j fun hh => h (by rw [hh])

theorem updateAt_get?_eq (l : List Mol) (n : Nat) (f : Mol → Mol) :
    (updateAt l n f).get? n = (l.get? n).map f := by
  induction l generalizing n with
  | nil => rfl
  | cons m t ih =>
    cases n with
    | zero => rfl
    | succ n' => exact ih n'

theorem findSome?_congr {α β : Type} (f g : α → Option β) (l : List α)
    (h : ∀ x ∈ l, f x = g x) : l.findSome? f = l.findSome? g := by
  induction l with
  | nil => rfl
  | cons x t ih =>
    simp only [List.findSome?, h x (List.mem_cons_self _ _)]
    exact match g x with
      | some _ => rfl
      | none => ih fun y hy => h y (List.mem_cons_of_mem _ hy)

theorem stateOf_setState_ne (S : Species) (p : SiteRef) (v : String) (r : SiteRef)
    (h : r ≠ p) : stateOf (setState S p v) r = stateOf S r := by
  obtain ⟨ri, rs⟩ := r
  obtain ⟨pi, ps⟩ := p
  unfold stateOf setState
  by_cases hi : ri = pi
  · subst hi
    have hs : rs ≠ ps := fun hh => h (by rw [hh])
    simp only [updateAt_get?_eq]
    cases hm : S.mols.get? ri with
    | none => rfl
    | some m =>
      simp only [Option.map_some', Option.some_bind]
      rw [List.findSome?_map]
      rw [findSome?_congr _ (fun q => if q.1 = rs then some q.2 else none) _ ?_]
      intro q _
      simp only [Function.comp]
      by_cases hq : q.1 = ps
      · rw [if_pos hq]
        simp only []
        rw [if_neg (fun hh : q.1 = rs => hs (hq ▸ hh ▸ rfl)),
            if_neg (fun hh : q.1 = rs => hs (hq ▸ hh ▸ rfl))]
      · rw [if_neg hq]
  · rw [updateAt_get?_ne _ _ _ _ hi]

/-- C2: for every rule whose structural edit only binds (or unbinds, or
changes the state of) the sites named in its reactant pattern, every site not
mentioned keeps exactly the same bond partner and state label in the product
as in the reactant: each of the three structural edits preserves the partner
and state of every other site. -/
theorem C2_context_preservation :
    (∀ (S : Species) (a b r : SiteRef), r ≠ a → r ≠ b →
        partnerOf (addBond S a b) r = partnerOf S r ∧
        stateOf (addBond S a b) r = stateOf S r) ∧
    (∀ (S : Species) (a b r : SiteRef), r ≠ a → r ≠ b →
        partnerOf (removeBond S a b) r = partnerOf S r ∧
        stateOf (removeBond S a b) r = stateOf S r) ∧
    (∀ (S : Species) (p : SiteRef) (v : String) (r : SiteRef), r ≠ p →
        partnerOf (setState S p v) r = partnerOf S r ∧
        stateOf (setState S p v) r = stateOf S r) := by
  refine ⟨fun S a b r ha hb => ⟨partnerOf_addBond S a b r ha hb, rfl⟩,
          fun S a b r ha hb => ⟨partnerOf_removeBond S a b r ha hb, rfl⟩,
          fun S p v r h => ⟨rfl, stateOf_setState_ne S p v r h⟩⟩

theorem C2_context_preservation_witness :
    ((1, "bDD") : SiteRef) ≠ (1, "bDED1") ∧ ((1, "bDD") : SiteRef) ≠ (2, "bDED") ∧
    partnerOf (addBond cd95FaddComplex (1, "bDED1") (2, "bDED")) (1, "bDD") =
      partnerOf cd95FaddComplex (1, "bDD") :=
  ⟨by decide, by decide,
   (C2_context_preservation.1 cd95FaddComplex (1, "bDED1") (2, "bDED") (1, "bDD")
      (by decide) (by decide)).1⟩

theorem isoSpecies_iff (S T : Species) : isoSpecies S T = true ↔ SpeciesIso S T := by
  unfold isoSpecies SpeciesIso isoCheck
  rw [List.any_eq_true]
  constructor
  · rintro ⟨p, hp, hchk⟩
    simp only [Bool.and_eq_true, decide_eq_true_eq, List.all_eq_true] at hchk
    exact ⟨p, by tauto⟩
  · rintro ⟨p, h1, h2, h3, h4, h5, h6, h7⟩
    refine ⟨p, (mem_allTuples _ _ p).mpr ⟨h1, h3⟩, ?_⟩
    simp only [Bool.and_eq_true, decide_eq_true_eq, List.all_eq_true]
    tauto

theorem range_getD (n j : Nat) : (List.range n).getD j j = j := by
  rcases Nat.lt_or_ge j n with h | h
  · rw [List.getD_eq_get?, List.get?_range h]; rfl
  · rw [List.getD_eq_get?, List.get?_eq_none.mpr (by simpa using h)]; rfl

theorem bondedIn_of_mem (S : Species) (e : SiteRef × SiteRef) (h : e ∈ S.bonds) :
    bondedIn S e.1 e.2 = true := by
  unfold bondedIn
  rw [List.any_eq_true]
  exact ⟨e, h, decide_eq_true (Or.inl ⟨rfl, rfl⟩)⟩

theorem speciesIso_refl (S : Species) : SpeciesIso S S := by
  refine ⟨List.range S.mols.length, List.length_range _, List.nodup_range _,
          fun x hx => List.mem_range.mp hx, rfl, ?_, ?_, ?_⟩
  · unfold molsMatchB
    rw [List.all_eq_true]
    intro i _
    rw [range_getD]
    exact decide_eq_true rfl
  · unfold bondImageB
    rw [List.all_eq_true]
    intro e he
    have h1 : mapRef (List.range S.mols.length) e.1 = e.1 := by
      unfold mapRef; rw [range_getD]
    have h2 : mapRef (List.range S.mols.length) e.2 = e.2 := by
      unfold mapRef; rw [range_getD]
    rw [h1, h2]
    exact bondedIn_of_mem S e he
  · unfold bondPreimB
    rw [List.all_eq_true]
    intro e he
    rw [List.any_eq_true]
    refine ⟨e, he, decide_eq_true (Or.inl ⟨?_, ?_⟩)⟩ <;>
      · unfold mapRef; rw [range_getD]

theorem addNew_append (produced known : List Species) :
    ∃ t, addNew known produced = known ++ t := by
  induction produced generalizing known with
  | nil => exact ⟨[], (List.append_nil known).symm⟩
  | cons S rest ih =>
    unfold addNew
    simp only [List.foldl_cons]
    by_cases h : known.any fun T => isoSpecies T S
    · rw [if_pos h]; exact ih known
    · rw [if_neg h]
      obtain ⟨t, ht⟩ := ih (known ++ [S])
      exact ⟨[S] ++ t, by rw [← List.append_assoc]; exact ht⟩

theorem expandOnce_append (rules : List Rule) (known : List Species) :
    ∃ t, expandOnce rules known = known ++ t :=
  addNew_append _ known

theorem genLoop_total (rules : List Rule) (maxSpecies : Nat) (fuel : Nat) :
    ∀ known : List Species, known.length ≤ maxSpecies →
      maxSpecies + 1 ≤ fuel + known.length →
      genLoop rules maxSpecies known fuel ≠ .outOfFuel := by
  induction fuel with
  | zero =>
    intro known hle hfuel
    omega
  | succ f ih =>
    intro known hle hfuel
    unfold genLoop
    simp only []
    by_cases h1 : (expandOnce rules known).length = known.length
    · rw [if_pos h1]; intro hc; cases hc
    · rw [if_neg h1]
      by_cases h2 : maxSpecies < (expandOnce rules known).length
      · rw [if_pos h2]; intro hc; cases hc
      · rw [if_neg h2]
        obtain ⟨t, ht⟩ := expandOnce_append rules known
        have hgrow : known.length < (expandOnce rules known).length := by
          have : known.length ≤ (expandOnce rules known).length := by
            rw [ht]; simp
          omega
        exact ih (expandOnce rules known) (by omega) (by omega)

theorem generate_total (rules : List Rule) (maxSpecies : Nat)
    (seed : List Species) (h : seed.length ≤ maxSpecies) :
    generate rules maxSpecies seed ≠ .outOfFuel :=
  genLoop_total rules maxSpecies (maxSpecies + 1) seed h (by omega)

/-- C3: network generation always terminates — enough passes always exist to
reach a terminal state (never fuel exhaustion); the pore rule set capped at 4
subunits reaches the CONVERGED terminal state after finitely many EXPANDING
passes, with exactly the monomer, 2-mer, 3-mer and 4-mer species; and the
uncapped oligomerization rule set exceeds the configured species bound and
yields NetworkTooLargeError instead of failing to terminate. -/
theorem C3_termination_and_size_guard :
    (∀ (rules : List Rule) (maxSpecies : Nat) (seed : List Species),
        seed.length ≤ maxSpecies →
        generate rules maxSpecies seed ≠ GenResult.outOfFuel) ∧
    generate poreRules 20 [baxMonoSpecies] =
      .converged [baxMonoSpecies, baxChain2, baxChain3, baxChain4] ∧
    generate [oligoGrowthRule] 3 [mMonoSpecies] = .err .networkTooLargeError :=
  ⟨generate_total, by decide, by decide⟩

theorem C3_termination_and_size_guard_witness :
    ([baxMonoSpecies].length ≤ 20) ∧
    generate poreRules 20 [baxMonoSpecies] ≠ GenResult.outOfFuel :=
  ⟨by decide, C3_termination_and_size_guard.1 poreRules 20 [baxMonoSpecies] (by decide)⟩

/-- C5: dedup equivalence is exactly labeled-graph isomorphism, and passes
never mutate known species: every EXPANDING pass returns the known list with
new species appended at the end, and a single produced species is dropped
precisely when it is isomorphic to an already-known one. -/
theorem C5_dedup_iso_and_immutability :
    (∀ S T : Species, isoSpecies S T = true ↔ SpeciesIso S T) ∧
    (∀ (rules : List Rule) (known : List Species),
        ∃ t, expandOnce rules known = known ++ t) ∧
    (∀ (known : List Species) (S : Species),
        addNew known [S] = known ↔ ∃ T ∈ known, SpeciesIso T S) := by
  refine ⟨isoSpecies_iff, expandOnce_append, fun known S => ?_⟩
  unfold addNew
  simp only [List.foldl_cons, List.foldl_nil]
  by_cases h : known.any fun T => isoSpecies T S
  · rw [if_pos h]
    simp only [List.any_eq_true] at h
    obtain ⟨T, hT, hiso⟩ := h
    exact iff_of_true rfl ⟨T, hT, (isoSpecies_iff T S).mp hiso⟩
  · rw [if_neg h]
    constructor
    · intro hc
      have := congrArg List.length hc
      simp at this
    · rintro ⟨T, hT, hiso⟩
      exact absurd (List.any_eq_true.mpr ⟨T, hT, (isoSpecies_iff T S).mpr hiso⟩) h

theorem networkIso_refl (N : Network) : NetworkIso N N :=
  ⟨List.forall₂_same.mpr fun S _ => speciesIso_refl S, rfl⟩

/-- C6: generation is idempotent — two complete runs of the Network Generator
from the same declarations produce isomorphic Networks: the same species up
to graph isomorphism and the same reaction rate constants. -/
theorem C6_generation_idempotent (d : Decls) :
    GenOutcomeIso (generateNetwork d) (generateNetwork d) := by
  cases h : generateNetwork d with
  | none => trivial
  | some N => exact networkIso_refl N

/-- C7: a rule whose reactant patterns match no combination of the known
species contributes the empty reaction list and no error, and no engine
operation ever produces AmbiguousMatchError — neither rule application (which
in fact never errs at all) nor network generation. -/
theorem C7_no_match_no_error :
    (∀ (r : Rule) (known : List Species),
        reactionCombos r known = [] → applyRule r known = .ok []) ∧
    (∀ (r : Rule) (known : List Species) (e : EngineError),
        applyRule r known ≠ .error e) ∧
    (∀ (rules : List Rule) (maxSpecies : Nat) (seed : List Species),
        generate rules maxSpecies seed ≠ .err .ambiguousMatchError) := by
  refine ⟨fun r known h => ?_, fun r known e => by simp [applyRule], ?_⟩
  · unfold applyRule reactionInstances
    rw [h]
    rfl
  · intro rules maxSpecies seed
    unfold generate
    generalize maxSpecies + 1 = fuel
    induction fuel generalizing seed with
    | zero => intro hc; cases hc
    | succ f ih =>
      unfold genLoop
      simp only []
      by_cases h1 : (expandOnce rules seed).length = seed.length
      · rw [if_pos h1]; intro hc; cases hc
      · rw [if_neg h1]
        by_cases h2 : maxSpecies < (expandOnce rules seed).length
        · rw [if_pos h2]; intro hc; cases hc
        · rw [if_neg h2]; exact ih _

theorem C7_no_match_no_error_witness :
    reactionCombos barBoundRule [barMonoSpecies] = [] ∧
    applyRule barBoundRule [barMonoSpecies] = .ok [] :=
  ⟨by decide, C7_no_match_no_error.1 barBoundRule [barMonoSpecies] (by decide)⟩

theorem foldl_add_eq_sum {α : Type} (f : α → Nat) (l : List α) (acc : Nat) :
    l.foldl (fun a x => a + f x) acc = acc + (l.map f).sum := by
  induction l generalizing acc with
  | nil => simp
  | cons x t ih => simp [ih, Nat.add_assoc]

/-- C8: for every observable and assignment of counts to species, the
evaluator returns the sum over species of (number of distinct matches of the
observable's pattern within the species) x (that species' count); the
evaluator is a pure fold over its one-time-point input, keeping no state.
Concretely, FADD_proC8_proC8 on 5 copies of the FADD:proC8:proC8 complex
counts 2 x 5 = 10. -/
theorem C8_observable_evaluation :
    (∀ (o : Observable) (xs : List (Species × Nat)),
        evaluate o xs =
          (xs.map fun sc => (matchAll o.pattern sc.1).length * sc.2).sum) ∧
    evaluate obsFaddProC8ProC8 [(faddProC8ProC8, 5)] = 10 :=
  ⟨fun o xs => by
      unfold evaluate
      rw [foldl_add_eq_sum (fun sc => (matchAll o.pattern sc.1).length * sc.2) xs 0]
      exact Nat.zero_add _,
   by decide⟩

/-- C4: the corrector scales the forward rate by the combinatorial factor
(here its reciprocal as a multiplier) counting structurally indistinguishable
matches and the reverse rate by the reciprocal factor; the factor comes from
the matcher's automorphism count alone.  For the symmetric Bax + Bax
dimerization the factor is 2, so the reverse (unbinding) rate is scaled by 2
relative to the naively instantiated rate and the forward rate is halved. -/
theorem C4_symmetry_rate_correction :
    (∀ (σ : Nat) (kf kr : ℚ), (σ : ℚ) ≠ 0 →
        (correctRates σ kf kr).1 = kf * (1 / σ) ∧
        (correctRates σ kf kr).2 = kr / (1 / σ)) ∧
    symFactor baxDimerReactants baxPairSpecies = 2 ∧
    correctRates (symFactor baxDimerReactants baxPairSpecies) baxDimKf baxDimKr =
      (baxDimKf / 2, 2 * baxDimKr) := by
  refine ⟨fun σ kf kr h => ⟨?_, ?_⟩, by decide, ?_⟩
  · simp [correctRates, mul_one_div, div_eq_mul_inv]
  · unfold correctRates
    simp only []
    rw [one_div, div_eq_mul_inv, inv_inv]
  · have h2 : symFactor baxDimerReactants baxPairSpecies = 2 := by decide
    rw [h2]
    unfold correctRates
    rw [Prod.mk.injEq]
    refine ⟨by norm_num, by rw [mul_comm]; norm_num⟩

theorem C4_symmetry_rate_correction_witness :
    ((2 : Nat) : ℚ) ≠ 0 ∧
    (correctRates 2 baxDimKf baxDimKr).2 = baxDimKr / (1 / ((2 : Nat) : ℚ)) :=
  ⟨by norm_num, (C4_symmetry_rate_correction.1 2 baxDimKf baxDimKr (by norm_num)).2⟩

/-- C9: in irvin_modv2.py, invoking the parameterless Bax_tetramerizes fails
with an unbound-name error on the name bax_active_state before any rule is
declared (the rules-declared list carried by the error is empty), so the
module-level call at line 545 cannot complete. -/
theorem C9_bax_tetramerizes_unbound_name :
    runStmts baxTetramerizesBody modv2Globals [] =
      .error ⟨"bax_active_state", []⟩ ∧
    "bax_active_state" ∉ modv2Globals :=
  ⟨rfl, by decide⟩

/-- C10: every executed Initial declaration of both source files seeds a
species in which every site of the monomer is explicitly unbound (None), the
sites listed being exactly the declared sites of the molecule type; hence
every initial species of either network is a complex of exactly one molecule
instance with no bonds, and multi-molecule species can arise only from rule
application during generation. -/
theorem C10_initials_are_unbound_monomers :
    initialsMod.all (initialOk modTypes) = true ∧
    initialsModv2.all (initialOk modv2Types) = true ∧
    ∀ pm ∈ initialsMod ++ initialsModv2,
      (seedSpecies pm).mols.length = 1 ∧ (seedSpecies pm).bonds = [] :=
  ⟨by decide, by decide, fun pm _ => ⟨rfl, rfl⟩⟩

theorem C10_initials_are_unbound_monomers_witness :
    (⟨"Fas", [ub "blig"]⟩ : PatMol) ∈ initialsMod ++ initialsModv2 ∧
    (seedSpecies ⟨"Fas", [ub "blig"]⟩).mols.length = 1 :=
  ⟨by decide,
   (C10_initials_are_unbound_monomers.2.2 ⟨"Fas", [ub "blig"]⟩ (by decide)).1⟩

end Anrm
